import Mathlib

/-!
Shallow embedding of the client-side model proxy in
src/openmdao.gui/src/openmdao/gui/static/js/openmdao/Model.js.

The object owns three pieces of private state: the listener registry
(`callbacks`), the cached model snapshot (`modelJSON`, a JavaScript value that
starts as null), and the cached type catalog (`types`). Every public method is
translated as a function from that state (plus the method arguments) to the
new state together with the list of observable events produced by the
synchronous part of the call: network requests issued via jQuery.ajax, callback
invocations, and debug log lines. The ajax success handlers run later, when the
response arrives; each is translated as its own function of the state at
response time and the response payload.

JavaScript values that can appear in the snapshot tree and in request data are
modelled by the inductive `JSValue`. Property access on null or undefined
throws a TypeError, which `getField` models in `Except`. A callback argument is
either a function (tagged with an identifier so invocations can be observed) or
any non-function value, for which `typeof cb == "function"` is false.
-/

set_option autoImplicit false

namespace OpenMDAOModel

/-- A JavaScript value: null, undefined, a number, a string, a boolean, or an
object given by its ordered property list. -/
inductive JSValue where
  | null
  | undefined
  | num (n : Int)
  | str (s : String)
  | bool (b : Bool)
  | obj (fields : List (String × JSValue))

/-- A TypeError is thrown by property access on null or undefined. -/
inductive JSError where
  | typeError
deriving DecidableEq

/-- A value passed where a callback is expected: either a function, identified
by a tag, or any non-function value. -/
inductive CB where
  | fn (id : Nat)
  | notFn
deriving DecidableEq

/-- The private state of the Model object: the listener registry, the cached
model snapshot (initially the JavaScript null), and the cached type catalog
(initially the JavaScript null, represented as `none`). -/
structure ModelState where
  callbacks : List CB
  modelJSON : JSValue
  types : Option Nat

/-- The state at construction time: empty registry, both caches absent. -/
def initialState : ModelState := ⟨[], JSValue.null, none⟩

/-- A network request handed to jQuery.ajax: HTTP method, url, and the data
object. -/
structure Request where
  method : String
  url : String
  data : List (String × JSValue)

/-- The argument a callback is invoked with. -/
inductive CBArg where
  | noArg
  | jsVal (v : JSValue)
  | typesVal (c : Nat)
  | text (t : String)

/-- An observable event of a method call: a network request, a callback
invocation, or a debug log line. -/
inductive Event where
  | ajax (r : Request)
  | invoke (id : Nat) (arg : CBArg)
  | logInfo (m : String)
  | logError (m : String)

/-- Whether an event is a network request. -/
def Event.isAjax : Event → Bool
  | .ajax _ => true
  | _ => false

/-- The number of network requests in an event list. -/
def countAjax (evs : List Event) : Nat := (evs.filter Event.isAjax).length

/-- Extracts the callback tag of a no-argument invocation event. -/
def invokedNoArg : Event → Option Nat
  | .invoke id .noArg => some id
  | _ => none

/-- Whether an event is an error log line. -/
def Event.isErrorLog : Event → Bool
  | .logError _ => true
  | _ => false

/-- The tag of a callback when it is a function. -/
def CB.fnId : CB → Option Nat
  | .fn id => some id
  | .notFn => none

/-- Whether a callback value is not a function. -/
def CB.isNotFn : CB → Bool
  | .notFn => true
  | .fn _ => false

/-- Loose equality with null: `v == null` holds for null and undefined. -/
def isNullish : JSValue → Bool
  | .null => true
  | .undefined => true
  | _ => false

/-- The test `typeof v === "number"`. -/
def isNumber : JSValue → Bool
  | .num _ => true
  | _ => false

/-- First binding of a key in a property list; `undefined` when absent. -/
def lookupField : List (String × JSValue) → String → JSValue
  | [], _ => .undefined
  | (k, v) :: rest, key => if k = key then v else lookupField rest key

/-- Property access `v[key]`: throws a TypeError on null and undefined, looks
the key up on an object, and yields undefined on the other primitives. -/
def getField : JSValue → String → Except JSError JSValue
  | .null, _ => .error .typeError
  | .undefined, _ => .error .typeError
  | .obj fs, key => .ok (lookupField fs key)
  | _, _ => .ok .undefined

/-- The loop body of getObject, lines 95-100 of Model.js: for each token, if
`obj[token]` is not undefined take it, else take `obj["py/state"][token]`
(which throws when the "py/state" property is itself absent). -/
def walkTokens : JSValue → List String → Except JSError JSValue
  | obj, [] => .ok obj
  | obj, t :: ts =>
    match getField obj t with
    | .error e => .error e
    | .ok .undefined =>
      match getField obj "py/state" with
      | .error e => .error e
      | .ok st =>
        match getField st t with
        | .error e => .error e
        | .ok v2 => walkTokens v2 ts
    | .ok v => walkTokens v ts

/-- The split `pathname.split(".")` of JavaScript, over the character list:
accumulator-based, keeping empty segments. -/
def splitDotsAux : List Char → List Char → List String
  | [], acc => [String.mk acc.reverse]
  | c :: rest, acc =>
    if c = '.' then String.mk acc.reverse :: splitDotsAux rest []
    else splitDotsAux rest (c :: acc)

/-- `pathname.split(".")`. -/
def jsSplitDot (s : String) : List String := splitDotsAux s.data []

/-- Lines 92-101 of getObject: when the pathname is nonempty, walk its dotted
tokens through the tree; otherwise keep the tree itself. -/
def resolvePath (obj : JSValue) (pathname : String) : Except JSError JSValue :=
  if 0 < pathname.length then walkTokens obj (jsSplitDot pathname) else .ok obj

/-- this.addListener: pushes the callback onto the registry. -/
def addListener (s : ModelState) (callback : CB) : ModelState :=
  ⟨s.callbacks ++ [callback], s.modelJSON, s.types⟩

/-- The event produced for one registry entry during updateListeners: a
function is called with no arguments, anything else is logged as an error. -/
def listenerEvent : CB → Event
  | .fn id => .invoke id .noArg
  | .notFn => .logError "Model: listener did not provide a valid callback function!"

/-- this.updateListeners: logs an info line, then walks the registry in order,
calling each function entry and logging an error for each non-function. -/
def updateListeners (s : ModelState) : List Event :=
  Event.logInfo "Model: updating listeners:" :: s.callbacks.map listenerEvent

/-- Registers a sequence of listeners one addListener call at a time. -/
def registerAll (s : ModelState) (cbs : List CB) : ModelState :=
  cbs.foldl addListener s

/-- this.getTypes, synchronous part: returns at once when the callback is not
a function; otherwise issues the GET types request. The types cache is not
consulted. -/
def getTypes (s : ModelState) (callback : CB) : ModelState × List Event :=
  match callback with
  | .notFn => (s, [])
  | .fn _ => (s, [.ajax ⟨"GET", "types", []⟩])

/-- Success handler of the getTypes request: stores the catalog extracted from
the XML response into the types cache and passes it to the callback. The
jQuery selector applied to the XML is external; `catalog` stands for its
result. -/
def getTypesSuccess (s : ModelState) (id : Nat) (catalog : Nat) :
    ModelState × List Event :=
  (⟨s.callbacks, s.modelJSON, some catalog⟩, [.invoke id (.typesVal catalog)])

/-- this.getJSON, synchronous part: returns at once when the callback is not a
function; with the cache present, delivers the cached snapshot to the
callback; with the cache absent, issues the GET model.json request. -/
def getJSON (s : ModelState) (callback : CB) : ModelState × List Event :=
  match callback with
  | .notFn => (s, [])
  | .fn id =>
    if isNullish s.modelJSON then (s, [.ajax ⟨"GET", "model.json", []⟩])
    else (s, [.invoke id (.jsVal s.modelJSON)])

/-- Success handler of the getJSON request: stores the snapshot in the cache
and delivers it to the callback. -/
def getJSONSuccess (s : ModelState) (id : Nat) (json : JSValue) :
    ModelState × List Event :=
  (⟨s.callbacks, json, s.types⟩, [.invoke id (.jsVal json)])

/-- The result of a method call that can throw: the new state, the events
produced before the throw, and the exception when one was thrown. -/
structure Outcome where
  state : ModelState
  events : List Event
  thrown : Option JSError

/-- this.getObject: returns at once when the callback is not a function. When
the cache is absent it runs `that.getJSON()` with no arguments, that is, with
an undefined (non-function) callback. It then walks the pathname through
`modelJSON` and calls the callback with the result; a failing property access
during the walk throws out of the method. -/
def getObject (s : ModelState) (pathname : String) (callback : CB) : Outcome :=
  match callback with
  | .notFn => ⟨s, [], none⟩
  | .fn id =>
    let fetched := if isNullish s.modelJSON then getJSON s .notFn else (s, [])
    match resolvePath fetched.1.modelJSON pathname with
    | .error e => ⟨fetched.1, fetched.2, some e⟩
    | .ok v => ⟨fetched.1, fetched.2 ++ [.invoke id (.jsVal v)], none⟩

/-- this.addComponent: clears the snapshot cache, replaces a non-numeric x or
y by 1, and issues the POST add request. -/
def addComponent (s : ModelState) (typepath nm : String) (x y : JSValue) :
    ModelState × List Event :=
  let s1 : ModelState := ⟨s.callbacks, .null, s.types⟩
  let x1 := if isNumber x then x else .num 1
  let y1 := if isNumber y then y else .num 1
  (s1, [.ajax ⟨"POST", "add",
        [("type", .str typepath), ("name", .str nm), ("x", x1), ("y", y1)]⟩])

/-- this.issueCommand, synchronous part: clears the snapshot cache and issues
the POST command request, whatever the callback is. -/
def issueCommand (s : ModelState) (cmd : String) (callback : CB) :
    ModelState × List Event :=
  (⟨s.callbacks, .null, s.types⟩,
   [.ajax ⟨"POST", "command", [("command", .str cmd)]⟩])

/-- Success handler of the issueCommand request: calls the callback with the
response text when it is a function, then runs updateListeners. -/
def issueCommandSuccess (s : ModelState) (callback : CB) (txt : String) :
    List Event :=
  (match callback with
   | .fn id => [Event.invoke id (.text txt)]
   | .notFn => []) ++ updateListeners s

/-- this.setFolder: issues the POST folder request; the cache is untouched. -/
def setFolder (s : ModelState) (folder : String) : ModelState × List Event :=
  (s, [.ajax ⟨"POST", "folder", [("folder", .str folder)]⟩])

/-- this.getFiles: returns at once when the callback is not a function;
otherwise issues the GET files.json request. -/
def getFiles (s : ModelState) (callback : CB) : ModelState × List Event :=
  match callback with
  | .notFn => (s, [])
  | .fn _ => (s, [.ajax ⟨"GET", "files.json", []⟩])

/-- this.getFile: returns at once when the callback is not a function;
otherwise issues the GET file request. -/
def getFile (s : ModelState) (filepath : String) (callback : CB) :
    ModelState × List Event :=
  match callback with
  | .notFn => (s, [])
  | .fn _ => (s, [.ajax ⟨"GET", "file", [("file", .str filepath)]⟩])

/-- this.setFile: issues the POST file request with filename and contents; the
snapshot cache is untouched. -/
def setFile (s : ModelState) (filepath contents : String) :
    ModelState × List Event :=
  (s, [.ajax ⟨"POST", "file",
       [("filename", .str filepath), ("contents", .str contents)]⟩])

/-- this.createFolder: issues the POST file request with the isFolder flag;
the snapshot cache is untouched. -/
def createFolder (s : ModelState) (folderpath : String) :
    ModelState × List Event :=
  (s, [.ajax ⟨"POST", "file",
       [("filename", .str folderpath), ("isFolder", .bool true)]⟩])

/-- this.removeFile: issues the POST remove request; the snapshot cache is
untouched. -/
def removeFile (s : ModelState) (filepath : String) : ModelState × List Event :=
  (s, [.ajax ⟨"POST", "remove", [("file", .str filepath)]⟩])

/-- The global replacement `replace(/.py/g, "")`: the dot in the pattern is
unescaped, so it matches ANY character other than a newline followed by the
letters p and y; matches are removed left to right without overlap. -/
def replaceAnyPy : List Char → List Char
  | c0 :: 'p' :: 'y' :: rest =>
    if c0 = '\n' then c0 :: replaceAnyPy ('p' :: 'y' :: rest)
    else replaceAnyPy rest
  | c :: rest => c :: replaceAnyPy rest
  | [] => []

/-- A global single-character replacement such as `replace(/\\/g, ".")`. -/
def replaceSep (old new : Char) (cs : List Char) : List Char :=
  cs.map fun c => if c = old then new else c

/-- The path transformation of importFile, lines 262-264: strip /.py/g, then
turn backslashes and slashes into dots. -/
def importPath (filepath : String) : String :=
  String.mk (replaceSep '/' '.' (replaceSep '\\' '.' (replaceAnyPy filepath.data)))

/-- this.importFile: builds the dotted path and delegates to issueCommand with
an undefined callback. The final line `that.updateListeners` lacks the call
parentheses: it is an expression statement that invokes nothing. -/
def importFile (s : ModelState) (filepath : String) : ModelState × List Event :=
  issueCommand s ("from " ++ importPath filepath ++ " import *") .notFn

/-- The check `path[0] == "/"` followed by `path.substring(1, path.length)`:
drops one leading slash when present. -/
def stripLeadSlash : List Char → List Char
  | [] => []
  | c :: rest => if c = '/' then rest else c :: rest

/-- The path normalization of execFile, lines 275-277: backslashes become
slashes, then one leading slash is removed. -/
def execPath (filepath : String) : String :=
  String.mk (stripLeadSlash (replaceSep '\\' '/' filepath.data))

/-- this.execFile: clears the snapshot cache, normalizes the path, and issues
the POST exec request. -/
def execFile (s : ModelState) (filepath : String) : ModelState × List Event :=
  (⟨s.callbacks, .null, s.types⟩,
   [.ajax ⟨"POST", "exec", [("filename", .str (execPath filepath))]⟩])

/-! ## Helper lemmas -/

theorem registerAll_callbacks (cbs : List CB) :
    ∀ s : ModelState, (registerAll s cbs).callbacks = s.callbacks ++ cbs := by
  induction cbs with
  | nil => intro s; simp [registerAll]
  | cons c rest ih =>
    intro s
    show (registerAll (addListener s c) rest).callbacks = _
    rw [ih]
    simp [addListener]

theorem listenerEvent_filterMap (cbs : List CB) :
    (cbs.map listenerEvent).filterMap invokedNoArg = cbs.filterMap CB.fnId := by
  induction cbs with
  | nil => rfl
  | cons c rest ih =>
    cases c <;>
      simp [listenerEvent, invokedNoArg, CB.fnId, List.filterMap_cons, ih]

theorem listenerEvent_errorCount (cbs : List CB) :
    ((cbs.map listenerEvent).filter Event.isErrorLog).length
      = (cbs.filter CB.isNotFn).length := by
  induction cbs with
  | nil => rfl
  | cons c rest ih =>
    cases c <;>
      simp [listenerEvent, Event.isErrorLog, CB.isNotFn, List.filter_cons, ih]

theorem old_not_mem_replaceSep (old new : Char) (cs : List Char) (h : old ≠ new) :
    old ∉ replaceSep old new cs := by
  intro hmem
  simp only [replaceSep, List.mem_map] at hmem
  rcases hmem with ⟨a, _, hfa⟩
  by_cases hc : a = old
  · rw [if_pos hc] at hfa
    exact h hfa.symm
  · rw [if_neg hc] at hfa
    exact hc hfa

theorem not_mem_replaceSep (old new tgt : Char) (cs : List Char)
    (h1 : tgt ∉ cs) (h2 : tgt ≠ new) : tgt ∉ replaceSep old new cs := by
  intro hmem
  simp only [replaceSep, List.mem_map] at hmem
  rcases hmem with ⟨a, ha, hfa⟩
  by_cases hc : a = old
  · rw [if_pos hc] at hfa
    exact h2 hfa.symm
  · rw [if_neg hc] at hfa
    exact h1 (hfa ▸ ha)

theorem mem_stripLeadSlash {c : Char} {cs : List Char}
    (h : c ∈ stripLeadSlash cs) : c ∈ cs := by
  cases cs with
  | nil => exact h
  | cons a rest =>
    by_cases ha : a = '/'
    · rw [stripLeadSlash, if_pos ha] at h
      exact List.mem_cons_of_mem _ h
    · rwa [stripLeadSlash, if_neg ha] at h

theorem execPath_no_backslash (fp : String) : '\\' ∉ (execPath fp).data := by
  intro hmem
  exact old_not_mem_replaceSep '\\' '/' fp.data (by decide)
    (mem_stripLeadSlash hmem)

theorem importPath_no_slash (fp : String) : '/' ∉ (importPath fp).data :=
  old_not_mem_replaceSep '/' '.' _ (by decide)

theorem importPath_no_backslash (fp : String) : '\\' ∉ (importPath fp).data :=
  not_mem_replaceSep '/' '.' '\\' _
    (old_not_mem_replaceSep '\\' '.' _ (by decide)) (by decide)

/-! ## Claim theorems -/

/-- C1, counterexample: setFile does not clear the snapshot cache. Starting
from a state whose cache holds a snapshot, after the setFile call the cache
still holds it, and a subsequent getJSON delivers the stale snapshot to its
callback while issuing no network request. -/
theorem setFile_leaves_stale_cache :
    ((setFile ⟨[], .obj [("a", .num 1)], none⟩ "f.txt" "hello").1.modelJSON
      = .obj [("a", .num 1)]) ∧
    ((getJSON (setFile ⟨[], .obj [("a", .num 1)], none⟩ "f.txt" "hello").1
        (.fn 0)).2 = [.invoke 0 (.jsVal (.obj [("a", .num 1)]))]) ∧
    countAjax (getJSON (setFile ⟨[], .obj [("a", .num 1)], none⟩ "f.txt"
        "hello").1 (.fn 0)).2 = 0 :=
  ⟨rfl, rfl, rfl⟩

/-- C1, amended: of the listed mutating operations only addComponent,
issueCommand and execFile clear the model cache, so a snapshot fetch right
after them issues a new network request; setFile, removeFile, createFolder and
setFolder leave the state, cache included, unchanged. -/
theorem cache_invalidation_split (s : ModelState) (tp nm : String)
    (x y : JSValue) (cmd filepath contents folderpath folder : String)
    (cb : CB) :
    ((addComponent s tp nm x y).1.modelJSON = .null) ∧
    ((issueCommand s cmd cb).1.modelJSON = .null) ∧
    ((execFile s filepath).1.modelJSON = .null) ∧
    ((getJSON (addComponent s tp nm x y).1 (.fn 0)).2
      = [.ajax ⟨"GET", "model.json", []⟩]) ∧
    ((getJSON (issueCommand s cmd cb).1 (.fn 0)).2
      = [.ajax ⟨"GET", "model.json", []⟩]) ∧
    ((getJSON (execFile s filepath).1 (.fn 0)).2
      = [.ajax ⟨"GET", "model.json", []⟩]) ∧
    ((setFile s filepath contents).1 = s) ∧
    ((removeFile s filepath).1 = s) ∧
    ((createFolder s folderpath).1 = s) ∧
    ((setFolder s folder).1 = s) :=
  ⟨rfl, rfl, rfl, rfl, rfl, rfl, rfl, rfl, rfl, rfl⟩

/-- C2, counterexample: after a first getTypes call whose success handler has
stored the catalog in the cache, a second getTypes call still issues a
request, so the two calls issue two network requests in total, not at most
one. -/
theorem getTypes_two_requests :
    ((getTypesSuccess (getTypes initialState (.fn 0)).1 0 7).1.types
      = some 7) ∧
    countAjax ((getTypes initialState (.fn 0)).2 ++
      (getTypes (getTypesSuccess (getTypes initialState (.fn 0)).1 0 7).1
        (.fn 1)).2) = 2 :=
  ⟨rfl, rfl⟩

/-- C2, amended: every getTypes call with a function callback issues exactly
one request for the type catalog, whatever the cache holds; the success
handler stores the catalog in the cache and passes it to the callback, but the
cached value is never consulted by a later call. -/
theorem getTypes_always_requests (s : ModelState) (id catalog : Nat) :
    ((getTypes s (.fn id)).2 = [.ajax ⟨"GET", "types", []⟩]) ∧
    ((getTypes s (.fn id)).1 = s) ∧
    ((getTypesSuccess s id catalog).1.types = some catalog) ∧
    ((getTypesSuccess s id catalog).1.modelJSON = s.modelJSON) ∧
    ((getTypesSuccess s id catalog).2 = [.invoke id (.typesVal catalog)]) :=
  ⟨rfl, rfl, rfl, rfl, rfl⟩

/-- C3: after any sequence of addListener registrations starting from the
fresh object, one updateListeners call invokes exactly the function entries,
each once with no arguments, in registration order; each non-function entry
produces one error log line and does not stop the remaining invocations. -/
theorem updateListeners_in_order (cbs : List CB) :
    ((updateListeners (registerAll initialState cbs)).filterMap invokedNoArg
      = cbs.filterMap CB.fnId) ∧
    ((updateListeners (registerAll initialState cbs)).filter
        Event.isErrorLog).length = (cbs.filter CB.isNotFn).length := by
  have h : updateListeners (registerAll initialState cbs) =
      Event.logInfo "Model: updating listeners:" :: cbs.map listenerEvent := by
    unfold updateListeners
    congr 1
    rw [registerAll_callbacks]
    rfl
  constructor
  · rw [h]
    simpa [invokedNoArg, List.filterMap_cons] using listenerEvent_filterMap cbs
  · rw [h]
    simpa [Event.isErrorLog, List.filter_cons] using listenerEvent_errorCount cbs

/-- C4, counterexample: the fallback key of the getObject walk is "py/state",
not "state": on the snapshot with the value under a "state" sub-key, the walk
throws a TypeError and delivers nothing to the callback. -/
theorem getObject_state_key_throws :
    ((getObject ⟨[], .obj [("a", .obj [("state",
        .obj [("b", .obj [("c", .num 42)])])])], none⟩ "a.b.c"
        (.fn 0)).thrown = some .typeError) ∧
    ((getObject ⟨[], .obj [("a", .obj [("state",
        .obj [("b", .obj [("c", .num 42)])])])], none⟩ "a.b.c"
        (.fn 0)).events = []) :=
  ⟨rfl, rfl⟩

/-- C4, amended: getObject walks the dotted pathname segment by segment, and
at each segment falls back to the "py/state" sub-key of the current node when
the direct key is missing; getObject "a.b.c" delivers 42 both on the snapshot
with a.b.c direct and on the snapshot with the subtree under the "py/state"
sub-key of a. -/
theorem getObject_py_state_fallback :
    ((getObject ⟨[], .obj [("a", .obj [("b", .obj [("c", .num 42)])])], none⟩
        "a.b.c" (.fn 0)).events = [.invoke 0 (.jsVal (.num 42))]) ∧
    ((getObject ⟨[], .obj [("a", .obj [("b", .obj [("c", .num 42)])])], none⟩
        "a.b.c" (.fn 0)).thrown = none) ∧
    ((getObject ⟨[], .obj [("a", .obj [("py/state",
        .obj [("b", .obj [("c", .num 42)])])])], none⟩ "a.b.c"
        (.fn 0)).events = [.invoke 0 (.jsVal (.num 42))]) ∧
    ((getObject ⟨[], .obj [("a", .obj [("py/state",
        .obj [("b", .obj [("c", .num 42)])])])], none⟩ "a.b.c"
        (.fn 0)).thrown = none) :=
  ⟨rfl, rfl, rfl, rfl⟩

/-- C5: with the cache absent, getObject runs getJSON with no callback, whose
guard returns at once without fetching; the call issues no network request,
leaves the cache absent, and the walk then throws a TypeError on the null
snapshot instead of delivering a value. -/
theorem getObject_empty_cache_no_fetch :
    ((getObject initialState "a" (.fn 0)).events = []) ∧
    ((getObject initialState "a" (.fn 0)).thrown = some .typeError) ∧
    ((getObject initialState "a" (.fn 0)).state.modelJSON = .null) :=
  ⟨rfl, rfl, rfl⟩

/-- C6, counterexample: the replacement pattern of importFile has an unescaped
dot, so it deletes any character followed by "py": importFile "spy/mod.py"
issues the command "from .mod import *", not "from spy.mod import *". -/
theorem importFile_unescaped_dot :
    ((importFile initialState "spy/mod.py").2 =
      [.ajax ⟨"POST", "command", [("command", .str "from .mod import *")]⟩]) ∧
    "from .mod import *" ≠ "from spy.mod import *" :=
  ⟨rfl, by decide⟩

/-- C6, amended: importFile deletes every non-overlapping occurrence of any
character followed by "py" (the unescaped pattern /.py/g), then turns both
separators into dots and issues the import command; the result never contains
a separator, and on a path whose only such occurrence is the trailing ".py",
such as "pkg/sub/mod.py", the command is "from pkg.sub.mod import *". -/
theorem importFile_issues_import (s : ModelState) (fp : String) :
    ((importFile s fp).1.modelJSON = .null) ∧
    ((importFile s fp).2 =
      [.ajax ⟨"POST", "command",
        [("command", .str ("from " ++ importPath fp ++ " import *"))]⟩]) ∧
    ('/' ∉ (importPath fp).data) ∧
    ('\\' ∉ (importPath fp).data) ∧
    importPath "pkg/sub/mod.py" = "pkg.sub.mod" ∧
    ((importFile initialState "pkg/sub/mod.py").2 =
      [.ajax ⟨"POST", "command",
        [("command", .str "from pkg.sub.mod import *")]⟩]) :=
  ⟨rfl, rfl, importPath_no_slash fp, importPath_no_backslash fp, rfl, rfl⟩

/-- C7: execFile clears the snapshot cache and issues one exec request whose
filename is the path with every backslash turned into a forward slash and one
leading slash removed; the sent filename never contains a backslash, and
execFile "/a/b.py" sends the relative path "a/b.py". -/
theorem execFile_normalizes (s : ModelState) (fp : String) :
    ((execFile s fp).1.modelJSON = .null) ∧
    ((execFile s fp).2 =
      [.ajax ⟨"POST", "exec", [("filename", .str (execPath fp))]⟩]) ∧
    ('\\' ∉ (execPath fp).data) ∧
    execPath "/a/b.py" = "a/b.py" ∧
    ((execFile initialState "/a/b.py").2 =
      [.ajax ⟨"POST", "exec", [("filename", .str "a/b.py")]⟩]) ∧
    execPath "\\a\\b.py" = "a/b.py" :=
  ⟨rfl, rfl, execPath_no_backslash fp, rfl, rfl, rfl⟩

/-- C8: the creation request of addComponent carries for x and for y a numeric
value: the argument itself when it is a number, the default 1 otherwise. -/
theorem addComponent_defaults_xy (s : ModelState) (tp nm : String)
    (x y : JSValue) :
    ∃ x1 y1 : JSValue,
      ((addComponent s tp nm x y).2 =
        [.ajax ⟨"POST", "add",
          [("type", .str tp), ("name", .str nm), ("x", x1), ("y", y1)]⟩]) ∧
      isNumber x1 = true ∧ isNumber y1 = true ∧
      x1 = (if isNumber x then x else .num 1) ∧
      y1 = (if isNumber y then y else .num 1) := by
  refine ⟨(if isNumber x then x else .num 1),
    (if isNumber y then y else .num 1), rfl, ?_, ?_, rfl, rfl⟩
  · cases x <;> simp [isNumber]
  · cases y <;> simp [isNumber]

/-- C9: each read operation that requires a callback, called with a
non-function callback, returns at once: it produces no event (hence no
network request) and leaves the whole state, both caches included,
unchanged. -/
theorem reader_guard_skips (s : ModelState) (pathname filepath : String) :
    getTypes s .notFn = (s, []) ∧
    getJSON s .notFn = (s, []) ∧
    getObject s pathname .notFn = ⟨s, [], none⟩ ∧
    getFiles s .notFn = (s, []) ∧
    getFile s filepath .notFn = (s, []) :=
  ⟨rfl, rfl, rfl, rfl, rfl⟩

/-- C10: issueCommand clears the model cache and sends the command request
whatever the callback is; on success the callback is invoked with the
response text exactly when it is a function, and the listeners are notified
afterwards in either case. -/
theorem issueCommand_always_invalidates (s : ModelState) (cmd : String)
    (cb : CB) (id : Nat) (txt : String) :
    ((issueCommand s cmd cb).1.modelJSON = .null) ∧
    ((issueCommand s cmd cb).2 =
      [.ajax ⟨"POST", "command", [("command", .str cmd)]⟩]) ∧
    (issueCommandSuccess s (.fn id) txt =
      Event.invoke id (.text txt) :: updateListeners s) ∧
    (issueCommandSuccess s .notFn txt = updateListeners s) :=
  ⟨rfl, rfl, rfl, rfl⟩

end OpenMDAOModel
